import Mathlib

/-!
Shallow embedding of the `http-server` repository (src/lib.rs, src/main.rs).

Rust `String`/`&str` values are modelled as `List Char` (`Str`); Rust byte
length of a `String` is the sum of the UTF-8 sizes of its chars.  The
filesystem (`fs::read_to_string`) is modelled as a function
`Str → Option Str` (`none` models an I/O error such as a missing file), and
`serde_json::from_str` as an opaque parameter `Str → Option Json` over a
small JSON value type.  Fallible Rust functions returning `Result` become
`Except String`; handlers that can additionally panic return `HResult`,
whose `crash` constructor models an uncaught panic.
-/

namespace HttpServer

abbrev Str := List Char

/-- Chars of a Lean string literal; used to transcribe Rust string literals. -/
def chars (s : String) : Str := s.data

/-- The blank-line separator "\r\n\r\n" used by the request parsing code. -/
def bSep : Str := chars "\r\n\r\n"

/-- Result of a handler: ok, a propagated `Err`, or an uncaught panic. -/
inductive HResult (α : Type) where
  | ok (a : α)
  | err (e : String)
  | crash
deriving DecidableEq

/-- A response triple `(status_line, content_type, contents)` as built by
`handle_connection` in lib.rs. -/
abbrev Triple := Str × Str × Str

/-- Helper for the split functions: prepend a char onto the first segment. -/
def consHead (c : Char) : List Str → List Str
  | [] => [[c]]
  | x :: xs => (c :: x) :: xs

/-- Rust `str::split` on a character predicate (keeps empty segments). -/
def splitPred (f : Char → Bool) : Str → List Str
  | [] => [[]]
  | c :: rest => if f c then [] :: splitPred f rest else consHead c (splitPred f rest)

/-- Rust `str::split(t)` for a single-char separator. -/
def splitChar (t : Char) (s : Str) : List Str := splitPred (fun c => c == t) s

/-- Rust `str::split("\r\n")` (used by `extract_content_type`). -/
def splitCRLF : Str → List Str
  | '\r' :: '\n' :: rest => [] :: splitCRLF rest
  | c :: rest => consHead c (splitCRLF rest)
  | [] => [[]]

/-- Rust `str::split("\r\n\r\n")` (used for body extraction). -/
def splitBlank : Str → List Str
  | '\r' :: '\n' :: '\r' :: '\n' :: rest => [] :: splitBlank rest
  | c :: rest => consHead c (splitBlank rest)
  | [] => [[]]

/-- Rust `str::split_whitespace`: whitespace-separated tokens, no empties. -/
def splitWS (s : Str) : List Str :=
  (splitPred Char.isWhitespace s).filter (fun x => !x.isEmpty)

/-- Rust `str::trim_matches('\0')`: strip NUL padding from both ends. -/
def trimNul (s : Str) : Str :=
  ((s.dropWhile (fun c => c == '\x00')).reverse.dropWhile (fun c => c == '\x00')).reverse

/-- Rust `str::trim`: strip whitespace from both ends. -/
def trimWS (s : Str) : Str :=
  ((s.dropWhile Char.isWhitespace).reverse.dropWhile Char.isWhitespace).reverse

/-- Rust `String::len`: the UTF-8 byte length of the string. -/
def utf8Len (s : Str) : Nat := s.foldl (fun a c => a + c.utf8Size) 0

/-- Decimal rendering of a number, as Rust `Display` for `usize`. -/
def natToStr (n : Nat) : Str := (Nat.repr n).data

example : splitChar '?' (chars "a?b?") = [chars "a", chars "b", []] := by decide
example : splitBlank (chars "x\r\n\r\ny\r\n\r\n") = [chars "x", chars "y", []] := by decide
example : splitCRLF (chars "a\r\nb\r\n\r\nc") = [chars "a", chars "b", [], chars "c"] := by decide
example : splitWS (chars " GET  / HTTP/1.1") = [chars "GET", chars "/", chars "HTTP/1.1"] := by decide
example : trimNul (chars "\x00\x00ab\x00") = chars "ab" := by decide
example : natToStr 42 = chars "42" := by decide

/-- Rust `str::lines().next()`: the text up to the first newline, with one
trailing carriage return stripped; `none` exactly when the string is empty. -/
def firstLine (s : Str) : Str :=
  let l := s.takeWhile (fun c => !(c == '\n'))
  if l.getLast? = some '\r' then l.dropLast else l

/-- lib.rs `parse_request` (lines 170-182): decode the request line into
`(method, path, protocol)`, with the source's error messages. -/
def parse_request (buffer : Str) : Except String (Str × Str × Str) :=
  if buffer = [] then .error "Empty request"
  else
    match splitWS (firstLine buffer) with
    | [] => .error "Invalid method"
    | [_] => .error "Invalid path"
    | [_, _] => .error "Invalid protocol"
    | m :: p :: pr :: _ => .ok (m, p, pr)

/-- lib.rs `detect_content_type` (lines 189-197). -/
def detect_content_type (path : Str) : Str :=
  if (chars ".html").isSuffixOf path then chars "text/html"
  else if (chars ".js").isSuffixOf path then chars "text/javascript"
  else if (chars ".json").isSuffixOf path then chars "application/json"
  else if (chars ".css").isSuffixOf path then chars "text/css"
  else chars "text/plain"

/-- lib.rs `read_static_file` (lines 184-187): a successful read yields a
200 response with the extension-derived content type. -/
def read_static_file (path : Str) (fs : Str → Option Str) : HResult Triple :=
  match fs path with
  | some contents => .ok (chars "HTTP/1.1 200 OK", detect_content_type path, contents)
  | none => .err "failed to read file"

/-- lib.rs `extract_content_type` (lines 327-339): the header is looked up at
the fixed line index 4 of the "\r\n"-split request. -/
def extract_content_type (buffer : Str) : Except String Str :=
  let headers := splitCRLF (trimNul buffer)
  match headers.get? 4 with
  | none => .error "No Content-Type header found"
  | some line =>
    let parts := splitChar ':' line
    if parts.length ≠ 2 ∨ trimWS (parts.headI) ≠ chars "Content-Type" then
      .error "Invalid Content-Type header"
    else .ok (trimWS (parts.getD 1 []))

/-- Does a match of the regex `id=[0-9]+&name=[a-zA-Z0-9]+` begin at the
start of `s`?  (`\d` of the upload variant coincides with `[0-9]` on the
ASCII data these handlers see.) -/
def afterId (s : Str) : Str := s.drop (chars "id=").length

def afterDigits (s : Str) : Str := (afterId s).dropWhile Char.isDigit

def matchFrom (s : Str) : Bool :=
  if (chars "id=").isPrefixOf s then
    (!((afterId s).takeWhile Char.isDigit).isEmpty) &&
    (chars "&name=").isPrefixOf (afterDigits s) &&
    (match ((afterDigits s).drop (chars "&name=").length).head? with
     | some c => c.isAlphanum
     | none => false)
  else false

/-- `Regex::is_match` for `id=[0-9]+&name=[a-zA-Z0-9]+`: some match begins at
some position of `s` (regex matches are unanchored substring matches). -/
def re_is_match : Str → Bool
  | [] => false
  | c :: rest => matchFrom (c :: rest) || re_is_match rest

example : re_is_match (chars "id=12&name=Bob") = true := by decide
example : re_is_match (chars "xxid=1&name=a99yy") = true := by decide
example : re_is_match (chars "id=&name=a") = false := by decide
example : re_is_match (chars "id=3&name=") = false := by decide
example : re_is_match (chars "zz") = false := by decide

/-- Rust `u64::from_str`: optional leading '+', then one or more ASCII
digits, rejecting overflow past `u64::MAX`. -/
def parseU64 (s : Str) : Option Nat :=
  let t := match s with
    | '+' :: r => r
    | r => r
  if t = [] ∨ !t.all Char.isDigit then none
  else
    let v := t.foldl (fun a c => a * 10 + (c.toNat - 48)) 0
    if v < 2 ^ 64 then some v else none

example : parseU64 (chars "17") = some 17 := by decide
example : parseU64 (chars "") = none := by decide
example : parseU64 (chars "abc") = none := by decide
example : parseU64 (chars "1a") = none := by decide

/-- `serde_json::Value`, restricted to the shapes the search handler
observes; numbers are the non-negative integers `as_u64` can yield. -/
inductive Json where
  | null
  | bool (b : Bool)
  | num (n : Nat)
  | str (s : Str)
  | arr (xs : List Json)
  | obj (fields : List (Str × Json))

/-- `Value::get` on an object: first field with the given key. -/
def Json.get (j : Json) (key : Str) : Option Json :=
  match j with
  | .obj fields => (fields.find? (fun f => f.1 == key)).map (fun f => f.2)
  | _ => none

/-- `Value::as_u64`. -/
def Json.as_u64 : Json → Option Nat
  | .num n => some n
  | _ => none

/-- `Value::as_str`. -/
def Json.as_str : Json → Option Str
  | .str s => some s
  | _ => none

/-- `Value::as_array`. -/
def Json.as_array : Json → Option (List Json)
  | .arr xs => some xs
  | _ => none

/-- serde_json string escaping (the cases arising for the data here). -/
def escChar (c : Char) : Str :=
  if c = '"' then ['\\', '"']
  else if c = '\\' then ['\\', '\\']
  else if c = '\n' then ['\\', 'n']
  else if c = '\r' then ['\\', 'r']
  else if c = '\t' then ['\\', 't']
  else [c]

def escape (s : Str) : Str := s.foldr (fun c acc => escChar c ++ acc) []

mutual
/-- `serde_json::to_string` of a `Value` (compact form). -/
def Json.render : Json → Str
  | .null => chars "null"
  | .bool true => chars "true"
  | .bool false => chars "false"
  | .num n => natToStr n
  | .str s => '"' :: escape s ++ ['"']
  | .arr xs => '[' :: Json.renderArr xs ++ [']']
  | .obj fs => '\x7b' :: Json.renderObj fs ++ ['\x7d']

def Json.renderArr : List Json → Str
  | [] => []
  | [x] => Json.render x
  | x :: y :: xs => Json.render x ++ ',' :: Json.renderArr (y :: xs)

def Json.renderObj : List (Str × Json) → Str
  | [] => []
  | [f] => '"' :: escape f.1 ++ chars "\":" ++ Json.render f.2
  | f :: g :: fs => '"' :: escape f.1 ++ chars "\":" ++ Json.render f.2 ++ ',' :: Json.renderObj (g :: fs)
end

/-- The body of `json!({"id": id, "name": name}).to_string()` in the upload
handler: serde's map is key-sorted, and "id" sorts before "name". -/
def jsonIdName (i nm : Str) : Str :=
  '\x7b' :: (chars "\"id\":\"" ++ escape i ++ chars "\",\"name\":\"" ++ escape nm ++ [ '"' ]) ++ ['\x7d']

example : jsonIdName [] [] = chars "\x7b\"id\":\"\",\"name\":\"\"\x7d" := by decide

/-- lib.rs `handle_echo_request` (lines 199-225): the body is the segment at
index 1 of the NUL-trimmed buffer split on "\r\n\r\n"; on a regex match the
segment is echoed back, otherwise the 403 error file is served. -/
def handle_echo_request (buffer : Str) (fs : Str → Option Str) : HResult Triple :=
  match (splitBlank (trimNul buffer)).get? 1 with
  | none => .err "No body found in the request"
  | some data =>
    if re_is_match data then
      .ok (chars "HTTP/1.1 200 OK", chars "application/x-www-form-urlencoded", data)
    else
      match fs (chars "data/error.txt") with
      | some c => .ok (chars "HTTP/1.1 403 Data format error", chars "text/plain", c)
      | none => .err "failed to read data/error.txt"

/-- lib.rs `handle_upload_request` (lines 227-284).  In the form-urlencoded
branch the pattern `id=\d+&name=[a-zA-Z0-9]+` contains no capture groups, so
`captures.get(1)` and `captures.get(2)` are always `None` and the
`map_or("", ...)` defaults leave both fields empty. -/
def handle_upload_request (buffer : Str) (fs : Str → Option Str) : HResult Triple :=
  match extract_content_type buffer with
  | .error e => .err e
  | .ok ct =>
    if ct = chars "application/json" then
      match (splitBlank (trimNul buffer)).get? 1 with
      | none => .err "No body found in the request"
      | some data => .ok (chars "HTTP/1.1 200 OK", chars "application/json", data)
    else if ct = chars "application/x-www-form-urlencoded" then
      match (splitBlank (trimNul buffer)).get? 1 with
      | none => .err "No body found in the request"
      | some data =>
        if re_is_match data then
          .ok (chars "HTTP/1.1 200 OK", chars "application/json", jsonIdName [] [])
        else
          match fs (chars "data/error.json") with
          | some c => .ok (chars "HTTP/1.1 403 Data format error", chars "application/json", c)
          | none => .err "failed to read data/error.json"
    else
      match fs (chars "static/404.html") with
      | some c => .ok (chars "HTTP/1.1 404 NOT FOUND", chars "text/html", c)
      | none => .err "failed to read static/404.html"

/-- Rust `param.splitn(2, '=')`: at most two segments, the second keeping any
further '=' characters. -/
def splitn2Eq (p : Str) : List Str :=
  let k := p.takeWhile (fun c => !(c == '='))
  match p.dropWhile (fun c => !(c == '=')) with
  | [] => [p]
  | _ :: v => [k, v]

example : splitn2Eq (chars "a=b=c") = [chars "a", chars "b=c"] := by decide
example : splitn2Eq (chars "abc") = [chars "abc"] := by decide
example : splitn2Eq (chars "a=") = [chars "a", []] := by decide

/-- `HashMap::insert`: overwrite any previous binding of the key. -/
def hmInsert (m : List (Str × Str)) (k v : Str) : List (Str × Str) :=
  m.filter (fun p => !(p.1 == k)) ++ [(k, v)]

/-- `HashMap::get`. -/
def hmGet (m : List (Str × Str)) (k : Str) : Option Str :=
  (m.find? (fun p => p.1 == k)).map (fun p => p.2)

/-- The loop of lib.rs `parse_query_params` (lines 341-353), over the
'&'-split segments of the query. -/
def pqpGo : List Str → List (Str × Str) → Except String (List (Str × Str))
  | [], m => .ok m
  | p :: rest, m =>
    match splitn2Eq p with
    | [k, v] => pqpGo rest (hmInsert m k v)
    | _ => .error "Invalid query parameter format"

/-- lib.rs `parse_query_params` (lines 341-353). -/
def parse_query_params (query : Str) : Except String (List (Str × Str)) :=
  pqpGo (splitChar '&' query) []

example : parse_query_params (chars "id=1&name=Foo")
    = .ok [(chars "id", chars "1"), (chars "name", chars "Foo")] := rfl
example : parse_query_params (chars "foo") = .error "Invalid query parameter format" := rfl
example : parse_query_params [] = .error "Invalid query parameter format" := rfl

/-- lib.rs `handle_search_request` (lines 286-325).  The backing store read
of data/data.json goes through `fs`, and `fromStr` stands for
`serde_json::from_str`.  Inside the filter closure the source runs
`id.parse::<u64>().unwrap()`: evaluating the closure panics (`crash`) as soon
as some record yields a u64 `id` while the query's `id` does not parse; when
no record yields one, the `map_or(false, ...)` never invokes the closure and
every record is filtered out. -/
def handle_search_request (path : Str) (fs : Str → Option Str)
    (fromStr : Str → Option Json) : HResult Triple :=
  let qres : Except String (List (Str × Str)) :=
    match splitChar '?' path with
    | [_, q] => parse_query_params q
    | _ => .ok []
  match qres with
  | .error e => .err e
  | .ok params =>
    let i := trimWS ((hmGet params (chars "id")).getD [])
    let nm := trimWS ((hmGet params (chars "name")).getD [])
    match fs (chars "data/data.json") with
    | none => .err "failed to read data/data.json"
    | some data =>
      match fromStr data with
      | none => .err "failed to parse data/data.json"
      | some j =>
        match j.as_array with
        | none => .err "JSON data is not an array"
        | some objs =>
          match parseU64 i with
          | some idv =>
            let matching := objs.filter (fun o =>
              ((o.get (chars "id")).bind Json.as_u64 == some idv) &&
              ((o.get (chars "name")).bind Json.as_str == some nm))
            if matching.isEmpty then
              match fs (chars "data/not_found.json") with
              | some nf => .ok (chars "HTTP/1.1 404 NOT FOUND", chars "application/json", nf)
              | none => .err "failed to read data/not_found.json"
            else
              .ok (chars "HTTP/1.1 200 OK", chars "application/json", Json.render (Json.arr matching))
          | none =>
            if objs.any (fun o => ((o.get (chars "id")).bind Json.as_u64).isSome) then .crash
            else
              match fs (chars "data/not_found.json") with
              | some nf => .ok (chars "HTTP/1.1 404 NOT FOUND", chars "application/json", nf)
              | none => .err "failed to read data/not_found.json"

/-- lib.rs `handle_connection`, request interpretation part (lines 111-155):
the `(status_line, content_type, contents)` triple.  The source's guard is
`method != "GET" || method != "POST"`, written exactly as in lib.rs:117. -/
def handle_connection_triple (fromStr : Str → Option Json) (fs : Str → Option Str)
    (buffer : Str) : HResult Triple :=
  match parse_request buffer with
  | .error e => .err e
  | .ok (method, path, _) =>
    if method ≠ chars "GET" ∨ method ≠ chars "POST" then
      match fs (chars "static/501.html") with
      | some c => .ok (chars "HTTP/1.1 501 OK", chars "text/html", c)
      | none => .err "failed to read static/501.html"
    else if method = chars "GET" ∧ (path = chars "/" ∨ path = chars "/index.html") then
      read_static_file (chars "static/index.html") fs
    else if method = chars "GET" ∧ path = chars "/501.html" then
      match fs (chars "static/501.html") with
      | some c =>
        .ok (chars "HTTP/1.1 501 Not Implemented", detect_content_type (chars "static/404.html"), c)
      | none => .err "failed to read static/501.html"
    else if method = chars "GET" ∧ path = chars "/api/check" then
      read_static_file (chars "data/data.txt") fs
    else if method = chars "GET" ∧ path = chars "/api/list" then
      read_static_file (chars "data/data.json") fs
    else if method = chars "POST" ∧ path = chars "/api/echo" then
      handle_echo_request buffer fs
    else if method = chars "POST" ∧ path = chars "/api/upload" then
      handle_upload_request buffer fs
    else if method = chars "GET" ∧ (chars "/api/search").isPrefixOf path then
      handle_search_request path fs fromStr
    else if method = chars "GET" ∧ (chars ".html").isSuffixOf path then
      read_static_file (chars "static" ++ path) fs
    else if method = chars "GET" ∧ (chars ".js").isSuffixOf path then
      read_static_file (chars "static" ++ path) fs
    else if method = chars "GET" ∧ (chars ".json").isSuffixOf path then
      read_static_file (chars "static" ++ path) fs
    else if method = chars "GET" ∧ (chars ".css").isSuffixOf path then
      read_static_file (chars "static" ++ path) fs
    else
      match fs (chars "static/404.html") with
      | some c =>
        .ok (chars "HTTP/1.1 404 NOT FOUND", detect_content_type (chars "static/404.html"), c)
      | none => .err "failed to read static/404.html"

/-- lib.rs `handle_connection`, response serialization (lines 156-162):
`format!("{}\r\nContent-Type: {}\r\nContent-Length: {}\r\n\r\n{}", ...)`
with `contents.len()`, the byte length of the contents. -/
def serialize_response (t : Triple) : Str :=
  t.1 ++ chars "\r\nContent-Type: " ++ t.2.1 ++ chars "\r\nContent-Length: "
    ++ natToStr (utf8Len t.2.2) ++ chars "\r\n\r\n" ++ t.2.2

/-- lib.rs `handle_connection` (lines 111-168): the full bytes written back
on the stream (socket I/O itself is outside the model). -/
def handle_connection (fromStr : Str → Option Json) (fs : Str → Option Str)
    (buffer : Str) : HResult Str :=
  match handle_connection_triple fromStr fs buffer with
  | .ok t => .ok (serialize_response t)
  | .err e => .err e
  | .crash => .crash

/-- What happens to the worker that runs one task, as observed from the task
closure submitted in main.rs (lines 28-32): on `Ok` the `Worker::new` loop
(lib.rs lines 91-102) continues to the next `recv`; on `Err` the closure
calls `exit_with_error`, i.e. `process::exit(1)` (main.rs lines 44-47); an
uncaught panic unwinds and terminates the worker thread. -/
inductive TaskOutcome where
  | workerContinues
  | processExit
  | workerPanics
deriving DecidableEq

/-- The task closure of main.rs lines 28-32 applied to one connection's
`handle_connection` result. -/
def main_job (r : HResult Str) : TaskOutcome :=
  match r with
  | .ok _ => .workerContinues
  | .err _ => .processExit
  | .crash => .workerPanics

/-- Join segments back with the blank-line separator. -/
def joinSep : List Str → Str
  | [] => []
  | [x] => x
  | x :: y :: xs => x ++ bSep ++ joinSep (y :: xs)

/-- Modelled from the spec: the request body is everything following the
first blank-line separator "\r\n\r\n", with the NUL padding of the read
buffer trimmed (spec sections 4.2 and 2); `none` when no separator occurs. -/
def spec_request_body (buffer : Str) : Option Str :=
  match splitBlank (trimNul buffer) with
  | _ :: r :: rest => some (joinSep (r :: rest))
  | _ => none

/-- Modelled from the spec: the response wire format
status line, Content-Type header, Content-Length header, blank line, body
(spec section 6). -/
def wire_format (st ct : Str) (n : Nat) (body : Str) : Str :=
  st ++ chars "\r\nContent-Type: " ++ ct ++ chars "\r\nContent-Length: "
    ++ natToStr n ++ chars "\r\n\r\n" ++ body

/-- Modelled from the spec: the query string of a request path is everything
after the first '?' (spec section 4.4); `none` when the path has no '?'. -/
def spec_query_string (path : Str) : Option Str :=
  match splitChar '?' path with
  | _ :: q :: rest => some ((q :: rest).foldr (fun a b => if b = [] then a else a ++ '?' :: b) [])
  | _ => none

/-- An empty store: every read fails. -/
def fsNone : Str → Option Str := fun _ => none

/-- A parse function that never succeeds (serde is never reached on these runs). -/
def noJson : Str → Option Json := fun _ => none

/-- A store holding the two static pages `handle_connection` can touch on a
`GET /` request: the index page and the 501 fallback page. -/
def fsMain : Str → Option Str := fun p =>
  if p = chars "static/501.html" then some (chars "NOTIMPL")
  else if p = chars "static/index.html" then some (chars "<h1>Hi</h1>") else none

example : handle_connection_triple noJson fsMain (chars "GET / HTTP/1.1\r\nHost: h\r\n\r\n")
    = .ok (chars "HTTP/1.1 501 OK", chars "text/html", chars "NOTIMPL") := by decide

example : handle_connection noJson fsMain (chars "GET / HTTP/1.1\r\nHost: h\r\n\r\n")
    = .ok (chars "HTTP/1.1 501 OK\r\nContent-Type: text/html\r\nContent-Length: 7\r\n\r\nNOTIMPL") := by
  decide

example : main_job (handle_connection noJson fsNone (chars "\x00\x00\x00\x00"))
    = .processExit := by decide

/-- A store whose data/data.json holds one record and which has the
not-found fallback. -/
def fsSearch : Str → Option Str := fun p =>
  if p = chars "data/data.json" then some (chars "[REC]")
  else if p = chars "data/not_found.json" then some (chars "NF") else none

/-- serde parse of the fixture above: one record, id 1, name "Foo". -/
def jsonOneRec : Str → Option Json := fun s =>
  if s = chars "[REC]" then
    some (Json.arr [Json.obj [(chars "id", Json.num 1), (chars "name", Json.str (chars "Foo"))]])
  else none

/-- A store whose data/data.json holds an empty record array. -/
def fsEmptyArr : Str → Option Str := fun p =>
  if p = chars "data/data.json" then some (chars "[]")
  else if p = chars "data/not_found.json" then some (chars "NF") else none

/-- serde parse of the empty fixture. -/
def jsonEmptyArr : Str → Option Json := fun s =>
  if s = chars "[]" then some (Json.arr []) else none

/-- A store holding data/error.txt, the echo handler's 403 payload. -/
def fsErrTxt : Str → Option Str := fun p =>
  if p = chars "data/error.txt" then some (chars "ERR") else none

example : handle_search_request (chars "/api/search?id=abc&name=Foo") fsSearch jsonOneRec
    = .crash := by decide
example : handle_search_request (chars "/api/search?name=Foo") fsSearch jsonOneRec
    = .crash := by decide
example : handle_search_request (chars "/api/search?id=1&name=Foo") fsSearch jsonOneRec
    = .ok (chars "HTTP/1.1 200 OK", chars "application/json",
        Json.render (Json.arr [Json.obj [(chars "id", Json.num 1), (chars "name", Json.str (chars "Foo"))]]))
    := by decide
example : handle_search_request (chars "/api/search?a?b") fsEmptyArr jsonEmptyArr
    = .ok (chars "HTTP/1.1 404 NOT FOUND", chars "application/json", chars "NF") := by decide
example : spec_query_string (chars "/api/search?a?b") = some (chars "a?b") := by decide

example : handle_upload_request
    (chars "POST /api/upload HTTP/1.1\r\nHost: a\r\nUA: b\r\nAccept: c\r\nContent-Type: application/x-www-form-urlencoded\r\n\r\nid=7&name=Bob")
    fsNone
    = .ok (chars "HTTP/1.1 200 OK", chars "application/json", jsonIdName [] []) := by decide

example : handle_upload_request
    (chars "POST /api/upload HTTP/1.1\r\nH1: a\r\nH2: b\r\nH3: c\r\nContent-Type: application/json\r\n\r\nA\r\n\r\nB")
    fsNone
    = .ok (chars "HTTP/1.1 200 OK", chars "application/json", chars "A") := by decide
example : spec_request_body
    (chars "POST /api/upload HTTP/1.1\r\nH1: a\r\nH2: b\r\nH3: c\r\nContent-Type: application/json\r\n\r\nA\r\n\r\nB")
    = some (chars "A\r\n\r\nB") := by decide

example : handle_echo_request (chars "POST /api/echo HTTP/1.1\r\n\r\nzz\r\n\r\nid=1&name=a") fsErrTxt
    = .ok (chars "HTTP/1.1 403 Data format error", chars "text/plain", chars "ERR") := by decide
example : spec_request_body (chars "POST /api/echo HTTP/1.1\r\n\r\nzz\r\n\r\nid=1&name=a")
    = some (chars "zz\r\n\r\nid=1&name=a") := by decide
example : re_is_match (chars "zz\r\n\r\nid=1&name=a") = true := by decide

example : handle_echo_request (chars "POST /api/echo HTTP/1.1\r\n\r\nid=12&name=Bob") fsNone
    = .ok (chars "HTTP/1.1 200 OK", chars "application/x-www-form-urlencoded", chars "id=12&name=Bob")
    := by decide

example : handle_upload_request
    (chars "POST /api/upload HTTP/1.1\r\nA: a\r\nB: b\r\nC: c\r\nContent-Type: application/x-www-form-urlencoded\r\n\r\nxxid=1&name=Bobyy")
    fsNone
    = .ok (chars "HTTP/1.1 200 OK", chars "application/json", jsonIdName [] []) := by decide
example : handle_echo_request
    (chars "POST /api/upload HTTP/1.1\r\nA: a\r\nB: b\r\nC: c\r\nContent-Type: application/x-www-form-urlencoded\r\n\r\nxxid=1&name=Bobyy")
    fsNone
    = .ok (chars "HTTP/1.1 200 OK", chars "application/x-www-form-urlencoded", chars "xxid=1&name=Bobyy")
    := by decide

lemma joinSep_cons_cons (x y : Str) (xs : List Str) :
    joinSep (x :: y :: xs) = x ++ bSep ++ joinSep (y :: xs) := rfl

lemma sep_infix_joinSep (y : Str) (x : Str) (xs : List Str) :
    bSep <:+: joinSep (x :: y :: xs) := by
  refine ⟨x, joinSep (y :: xs), ?_⟩
  rw [joinSep_cons_cons]

/-- If the buffer has a body and that body holds no further blank-line
separator, the code's `split("\r\n\r\n")` and index-1 lookup recover exactly
that body. -/
lemma body_get1 (buffer b : Str) (hb : spec_request_body buffer = some b)
    (hsep : ¬ bSep <:+: b) : (splitBlank (trimNul buffer)).get? 1 = some b := by
  unfold spec_request_body at hb
  cases hs : splitBlank (trimNul buffer) with
  | nil => rw [hs] at hb; simp at hb
  | cons h tail =>
    cases tail with
    | nil => rw [hs] at hb; simp at hb
    | cons r rest =>
      rw [hs] at hb
      simp only [Option.some.injEq] at hb
      cases rest with
      | nil =>
        have hrb : r = b := hb
        rw [hrb]
        rfl
      | cons r2 rest2 =>
        exact absurd (hb ▸ sep_infix_joinSep r2 r rest2) hsep

lemma isPrefixOf_append_self (p r : Str) : p.isPrefixOf (p ++ r) = true := by
  induction p with
  | nil => simp [List.isPrefixOf]
  | cons c cs ih => simp [List.isPrefixOf, ih]

lemma takeWhile_middle (f : Char → Bool) (d : Str) (c : Char) (r : Str)
    (hd : ∀ a ∈ d, f a = true) (hc : f c = false) :
    (d ++ c :: r).takeWhile f = d := by
  induction d with
  | nil => simp [List.takeWhile, hc]
  | cons x xs ih =>
    have hx : f x = true := hd x (by simp)
    simp only [List.cons_append, List.takeWhile, hx]
    have := ih (fun a ha => hd a (by simp [ha]))
    simp only [List.append_eq] at this ⊢
    rw [this]

lemma dropWhile_middle (f : Char → Bool) (d : Str) (c : Char) (r : Str)
    (hd : ∀ a ∈ d, f a = true) (hc : f c = false) :
    (d ++ c :: r).dropWhile f = c :: r := by
  induction d with
  | nil => simp [List.dropWhile, hc]
  | cons x xs ih =>
    have hx : f x = true := hd x (by simp)
    simp only [List.cons_append, List.dropWhile, hx]
    have := ih (fun a ha => hd a (by simp [ha]))
    simp only [List.append_eq] at this ⊢
    rw [this]

/-- A regex match starts right at an occurrence `id=<digits>&name=<alnum>`. -/
lemma matchFrom_head (d n post : Str) (hd : d ≠ []) (hda : ∀ c ∈ d, c.isDigit = true)
    (hn : n ≠ []) (hna : ∀ c ∈ n, c.isAlphanum = true) :
    matchFrom (chars "id=" ++ (d ++ (chars "&name=" ++ (n ++ post)))) = true := by
  have hid : afterId (chars "id=" ++ (d ++ (chars "&name=" ++ (n ++ post))))
      = d ++ (chars "&name=" ++ (n ++ post)) := List.drop_left _ _
  have hsplit : d ++ (chars "&name=" ++ (n ++ post))
      = d ++ '&' :: (chars "name=" ++ (n ++ post)) := rfl
  have hamp : Char.isDigit '&' = false := rfl
  have htw : (d ++ (chars "&name=" ++ (n ++ post))).takeWhile Char.isDigit = d := by
    rw [hsplit]; exact takeWhile_middle _ _ _ _ hda hamp
  have hdw : afterDigits (chars "id=" ++ (d ++ (chars "&name=" ++ (n ++ post))))
      = chars "&name=" ++ (n ++ post) := by
    unfold afterDigits
    rw [hid, hsplit]
    exact dropWhile_middle _ _ _ _ hda hamp
  unfold matchFrom
  rw [if_pos (isPrefixOf_append_self _ _)]
  rw [hid, htw, hdw, isPrefixOf_append_self, List.drop_left]
  cases n with
  | nil => exact absurd rfl hn
  | cons c cs =>
    have : c.isAlphanum = true := hna c (by simp)
    simp [hd, this]

lemma re_is_match_cons (c : Char) (l : Str) :
    re_is_match (c :: l) = (matchFrom (c :: l) || re_is_match l) := rfl

/-- Unanchored matching: a match anywhere in the suffix is a match. -/
lemma re_is_match_append (pre s : Str) (hs : s ≠ []) (h : matchFrom s = true) :
    re_is_match (pre ++ s) = true := by
  induction pre with
  | nil =>
    cases s with
    | nil => exact absurd rfl hs
    | cons c r => rw [List.nil_append, re_is_match_cons, h]; rfl
  | cons x xs ih =>
    rw [List.cons_append, re_is_match_cons, ih]
    simp

lemma splitPred_no_sep (f : Char → Bool) (l : Str) (h : ∀ c ∈ l, f c = false) :
    splitPred f l = [l] := by
  induction l with
  | nil => rfl
  | cons c cs ih =>
    have hc : f c = false := h c (by simp)
    simp only [splitPred, hc, if_neg Bool.false_ne_true]
    rw [ih (fun a ha => h a (by simp [ha]))]
    rfl

/-- Splitting at a unique separator occurrence yields exactly two parts. -/
lemma splitPred_pair (f : Char → Bool) (xs : Str) (c : Char) (ys : Str)
    (hx : ∀ a ∈ xs, f a = false) (hc : f c = true) (hy : ∀ a ∈ ys, f a = false) :
    splitPred f (xs ++ c :: ys) = [xs, ys] := by
  induction xs with
  | nil =>
    simp only [List.nil_append, splitPred, hc, if_pos]
    rw [splitPred_no_sep f ys hy]
  | cons x xt ih =>
    have hxf : f x = false := hx x (by simp)
    simp only [List.cons_append, splitPred, hxf, if_neg Bool.false_ne_true]
    have := ih (fun a ha => hx a (by simp [ha]))
    simp only [List.append_eq] at this ⊢
    rw [this]
    rfl

/-- The query-parameter loop fails as soon as some segment has no '='. -/
lemma pqpGo_err (ps : List Str) (m : List (Str × Str))
    (hbad : ∃ p ∈ ps, '=' ∉ p) :
    pqpGo ps m = .error "Invalid query parameter format" := by
  induction ps generalizing m with
  | nil => simp at hbad
  | cons p rest ih =>
    rcases hbad with ⟨q, hq, hqe⟩
    rcases List.mem_cons.mp hq with hq1 | hq2
    · subst hq1
      have : q.dropWhile (fun c => !(c == '=')) = [] := by
        rw [List.dropWhile_eq_nil_iff]
        intro x hx
        simp only [Bool.not_eq_true']
        exact beq_eq_false_iff_ne.mpr (fun hxe => hqe (hxe ▸ hx))
      simp only [pqpGo, splitn2Eq, this]
    · cases hdw : p.dropWhile (fun c => !(c == '=')) with
      | nil => simp only [pqpGo, splitn2Eq, hdw]
      | cons z zs =>
        simp only [pqpGo, splitn2Eq, hdw]
        exact ih _ ⟨q, hq2, hqe⟩

/-- Claim C1: the spec says valid `GET /` and `GET /index.html` requests are
answered with status 200 and content type text/html.  The source's guard
`method != "GET" || method != "POST"` (lib.rs:117) is a tautology, so even
against a store containing static/index.html both requests are answered from
the 501 branch: status line "HTTP/1.1 501 OK" serving the 501 page, never
the 200 index page. -/
theorem c1_get_root_hits_501_branch :
    handle_connection_triple noJson fsMain (chars "GET / HTTP/1.1\r\nHost: h\r\n\r\n")
      = .ok (chars "HTTP/1.1 501 OK", chars "text/html", chars "NOTIMPL")
    ∧ handle_connection_triple noJson fsMain (chars "GET /index.html HTTP/1.1\r\nHost: h\r\n\r\n")
      = .ok (chars "HTTP/1.1 501 OK", chars "text/html", chars "NOTIMPL") :=
  ⟨by decide, by decide⟩

/-- Claim C2: the spec says a task whose execution raises an internal error
must not crash its worker, which reports and continues.  In main.rs lines
28-32 the submitted closure runs `handle_connection(stream).unwrap_or_else(
|err| exit_with_error(..))`, and `exit_with_error` calls `process::exit(1)`:
on the connection below (a read yielding only NUL padding, so parsing fails)
the whole process exits instead of the worker continuing. -/
theorem c2_task_error_exits_process :
    main_job (handle_connection noJson fsNone (chars "\x00\x00\x00\x00"))
      = .processExit
    ∧ TaskOutcome.processExit ≠ TaskOutcome.workerContinues :=
  ⟨by decide, by decide⟩

/-- Claim C3: the spec says a valid form-urlencoded upload `id=7&name=Bob`
is answered with a JSON object whose fields equal the input values.  The
regex `id=\d+&name=[a-zA-Z0-9]+` has no capture groups, so
`captures.get(1)`/`captures.get(2)` are `None` and the handler always emits
the empty-field object, which differs from the object carrying the input
values. -/
theorem c3_upload_form_fields_always_empty :
    handle_upload_request
      (chars "POST /api/upload HTTP/1.1\r\nHost: a\r\nUA: b\r\nAccept: c\r\nContent-Type: application/x-www-form-urlencoded\r\n\r\nid=7&name=Bob")
      fsNone
      = .ok (chars "HTTP/1.1 200 OK", chars "application/json", jsonIdName [] [])
    ∧ jsonIdName [] [] ≠ jsonIdName (chars "7") (chars "Bob") :=
  ⟨by decide, by decide⟩

/-- Claim C4: with a non-empty backing record set, a `GET /api/search`
request whose `id` query value is not a digit string panics on the unchecked
`id.parse::<u64>().unwrap()` (lib.rs:310) instead of failing gracefully —
both for a non-digit value and for an absent `id` (defaulting to ""). -/
theorem c4_search_nondigit_id_crashes :
    handle_search_request (chars "/api/search?id=abc&name=Foo") fsSearch jsonOneRec = .crash
    ∧ handle_search_request (chars "/api/search?name=Foo") fsSearch jsonOneRec = .crash :=
  ⟨by decide, by decide⟩

/-- Claim C6: any request whose method is neither GET nor POST is answered
from the 501 branch, whatever its path: the method guard at lib.rs:117 is
evaluated before any of the path-matching arms. -/
theorem c6_non_get_post_is_501 (fromStr : Str → Option Json) (fs : Str → Option Str)
    (buffer m p pr c : Str)
    (hparse : parse_request buffer = .ok (m, p, pr))
    (hm1 : m ≠ chars "GET") (_hm2 : m ≠ chars "POST")
    (h501 : fs (chars "static/501.html") = some c) :
    handle_connection_triple fromStr fs buffer
      = .ok (chars "HTTP/1.1 501 OK", chars "text/html", c) := by
  unfold handle_connection_triple
  simp only [hparse]
  rw [if_pos (Or.inl hm1), h501]

theorem c6_witness :
    handle_connection_triple noJson fsMain (chars "DELETE /x HTTP/1.1\r\n\r\n")
      = .ok (chars "HTTP/1.1 501 OK", chars "text/html", chars "NOTIMPL") :=
  c6_non_get_post_is_501 noJson fsMain (chars "DELETE /x HTTP/1.1\r\n\r\n")
    (chars "DELETE") (chars "/x") (chars "HTTP/1.1") (chars "NOTIMPL")
    rfl (by decide) (by decide) (by decide)

/-- Claim C9: every response `handle_connection` serializes has the exact
layout status line, "Content-Type: ", "Content-Length: ", blank line, body —
no other headers — and the emitted Content-Length is the byte length of the
body. -/
theorem c9_response_wire_format (fromStr : Str → Option Json) (fs : Str → Option Str)
    (buffer resp : Str)
    (h : handle_connection fromStr fs buffer = .ok resp) :
    ∃ st ct body, resp = wire_format st ct (utf8Len body) body := by
  unfold handle_connection at h
  cases ht : handle_connection_triple fromStr fs buffer with
  | ok t =>
    simp only [ht, HResult.ok.injEq] at h
    exact ⟨t.1, t.2.1, t.2.2, h.symm⟩
  | err e => rw [ht] at h; exact HResult.noConfusion h
  | crash => rw [ht] at h; exact HResult.noConfusion h

theorem c9_witness :
    handle_connection noJson fsMain (chars "GET / HTTP/1.1\r\nHost: h\r\n\r\n")
      = .ok (chars "HTTP/1.1 501 OK\r\nContent-Type: text/html\r\nContent-Length: 7\r\n\r\nNOTIMPL")
    ∧ ∃ st ct body,
        chars "HTTP/1.1 501 OK\r\nContent-Type: text/html\r\nContent-Length: 7\r\n\r\nNOTIMPL"
          = wire_format st ct (utf8Len body) body :=
  ⟨by decide,
   c9_response_wire_format noJson fsMain (chars "GET / HTTP/1.1\r\nHost: h\r\n\r\n")
     (chars "HTTP/1.1 501 OK\r\nContent-Type: text/html\r\nContent-Length: 7\r\n\r\nNOTIMPL")
     (by decide)⟩

/-- The C5 counterexample buffer: Content-Type application/json, body
"A\r\n\r\nB" (a body containing a further blank-line separator). -/
def bufC5 : Str :=
  chars "POST /api/upload HTTP/1.1\r\nH1: a\r\nH2: b\r\nH3: c\r\nContent-Type: application/json\r\n\r\nA\r\n\r\nB"

/-- Claim C5, counterexample: the claim promises byte-for-byte round-trip of
the request body for `POST /api/upload` with Content-Type application/json.
On a body containing "\r\n\r\n" the handler echoes only the part before the
inner separator ("A"), not the full body "A\r\n\r\nB". -/
theorem c5_body_truncated_at_inner_separator :
    extract_content_type bufC5 = .ok (chars "application/json")
    ∧ spec_request_body bufC5 = some (chars "A\r\n\r\nB")
    ∧ handle_upload_request bufC5 fsNone
        = .ok (chars "HTTP/1.1 200 OK", chars "application/json", chars "A")
    ∧ chars "A" ≠ chars "A\r\n\r\nB" :=
  ⟨rfl, by decide, by decide, by decide⟩

/-- Claim C5 as amended: for `POST /api/upload` with Content-Type
application/json, the response is 200 and its body equals the request body
byte for byte, provided the body contains no blank-line separator
"\r\n\r\n" (a body containing one is truncated at that separator). -/
theorem c5_upload_json_roundtrip (fs : Str → Option Str) (buffer b : Str)
    (hct : extract_content_type buffer = .ok (chars "application/json"))
    (hb : spec_request_body buffer = some b)
    (hsep : ¬ bSep <:+: b) :
    handle_upload_request buffer fs
      = .ok (chars "HTTP/1.1 200 OK", chars "application/json", b) := by
  have hget := body_get1 buffer b hb hsep
  unfold handle_upload_request
  simp only [hct]
  rw [if_true]
  simp only [hget]

/-- The C5 witness buffer: an ordinary JSON upload. -/
def bufC5w : Str :=
  chars "POST /api/upload HTTP/1.1\r\nH1: a\r\nH2: b\r\nH3: c\r\nContent-Type: application/json\r\n\r\n\x7b\"x\":1\x7d"

theorem c5_upload_json_roundtrip_witness :
    handle_upload_request bufC5w fsNone
      = .ok (chars "HTTP/1.1 200 OK", chars "application/json", chars "\x7b\"x\":1\x7d") :=
  c5_upload_json_roundtrip fsNone bufC5w (chars "\x7b\"x\":1\x7d")
    rfl (by decide) (by decide)

/-- Claim C7, counterexample: for the path "/api/search?a?b" the query
string (everything after the first '?') is "a?b", whose single parameter
"a?b" has no paired "=value"; yet because `path.split('?')` yields three
parts, the handler silently uses an empty parameter map and returns a 404
response instead of failing with InvalidQuery. -/
theorem c7_extra_qmark_swallows_bad_param :
    spec_query_string (chars "/api/search?a?b") = some (chars "a?b")
    ∧ (∃ p ∈ splitChar '&' (chars "a?b"), '=' ∉ p)
    ∧ handle_search_request (chars "/api/search?a?b") fsEmptyArr jsonEmptyArr
        = .ok (chars "HTTP/1.1 404 NOT FOUND", chars "application/json", chars "NF") :=
  ⟨by decide, ⟨chars "a?b", by decide, by decide⟩, by decide⟩

/-- Claim C7 as amended: for every `GET /api/search` request whose path
contains exactly one '?' and whose query string has a parameter lacking a
paired "=value", the handler fails with the InvalidQuery error
"Invalid query parameter format" (an error, not a response). -/
theorem c7_bad_param_fails_invalid_query (pre q : Str) (fs : Str → Option Str)
    (fromStr : Str → Option Json)
    (hpre : '?' ∉ pre) (hq : '?' ∉ q)
    (hbad : ∃ p ∈ splitChar '&' q, '=' ∉ p) :
    handle_search_request (pre ++ '?' :: q) fs fromStr
      = .err "Invalid query parameter format" := by
  have hsplit : splitChar '?' (pre ++ '?' :: q) = [pre, q] := by
    apply splitPred_pair
    · intro a ha
      exact beq_eq_false_iff_ne.mpr (fun he => hpre (he ▸ ha))
    · exact beq_self_eq_true '?'
    · intro a ha
      exact beq_eq_false_iff_ne.mpr (fun he => hq (he ▸ ha))
  unfold handle_search_request parse_query_params
  simp only [hsplit, pqpGo_err (splitChar '&' q) [] hbad]

theorem c7_bad_param_witness :
    handle_search_request (chars "/api/search" ++ '?' :: chars "foo") fsEmptyArr jsonEmptyArr
      = .err "Invalid query parameter format" :=
  c7_bad_param_fails_invalid_query (chars "/api/search") (chars "foo") fsEmptyArr jsonEmptyArr
    (by decide) (by decide) ⟨chars "foo", by decide, by decide⟩

/-- Claim C8: for every `POST /api/echo` request whose body is of the form
`id=<digits>&name=<alphanumerics>`, the handler returns 200 with content
type application/x-www-form-urlencoded and echoes the body byte for byte. -/
theorem c8_echo_valid_body_roundtrip (buffer : Str) (fs : Str → Option Str) (b d n : Str)
    (hb : spec_request_body buffer = some b)
    (hbody : b = chars "id=" ++ d ++ chars "&name=" ++ n)
    (hd : d ≠ []) (hda : ∀ c ∈ d, c.isDigit = true)
    (hn : n ≠ []) (hna : ∀ c ∈ n, c.isAlphanum = true) :
    handle_echo_request buffer fs
      = .ok (chars "HTTP/1.1 200 OK", chars "application/x-www-form-urlencoded", b) := by
  have hcr : ¬ bSep <:+: b := by
    intro hinf
    have hmem : '\r' ∈ b := hinf.subset (by decide)
    rw [hbody] at hmem
    simp only [List.mem_append] at hmem
    rcases hmem with ((h1 | h2) | h3) | h4
    · exact absurd h1 (by decide)
    · exact absurd (hda _ h2) (by decide)
    · exact absurd h3 (by decide)
    · exact absurd (hna _ h4) (by decide)
  have hget := body_get1 buffer b hb hcr
  have hassoc : b = chars "id=" ++ (d ++ (chars "&name=" ++ (n ++ []))) := by
    rw [hbody]
    simp [List.append_assoc]
  have hmf := matchFrom_head d n [] hd hda hn hna
  have hmatch : re_is_match b = true := by
    have hne : chars "id=" ++ (d ++ (chars "&name=" ++ (n ++ []))) ≠ [] := by
      intro hcon
      exact absurd (List.append_eq_nil.mp hcon).1 (by decide)
    have := re_is_match_append [] _ hne hmf
    rw [List.nil_append] at this
    rw [hassoc]
    exact this
  unfold handle_echo_request
  simp only [hget, hmatch]
  rw [if_true]

theorem c8_echo_valid_body_witness :
    handle_echo_request (chars "POST /api/echo HTTP/1.1\r\n\r\nid=12&name=Bob") fsNone
      = .ok (chars "HTTP/1.1 200 OK", chars "application/x-www-form-urlencoded",
          chars "id=12&name=Bob") :=
  c8_echo_valid_body_roundtrip (chars "POST /api/echo HTTP/1.1\r\n\r\nid=12&name=Bob") fsNone
    (chars "id=12&name=Bob") (chars "12") (chars "Bob")
    (by decide) (by decide) (by decide) (by decide) (by decide) (by decide)

/-- The C10 counterexample buffer: the request body
"zz\r\n\r\nid=1&name=a" contains the pattern, but the surrounding text
holds a blank-line separator. -/
def bufC10 : Str := chars "POST /api/echo HTTP/1.1\r\n\r\nzz\r\n\r\nid=1&name=a"

/-- Claim C10, counterexample: the claim promises that every body holding
`id=<digits>&name=<alphanumerics>` anywhere inside arbitrary surrounding
text takes the success branch.  With surrounding text containing "\r\n\r\n"
the handler validates only the part of the body before the inner separator
and takes the 403 branch instead. -/
theorem c10_pattern_after_inner_separator_403 :
    spec_request_body bufC10
      = some (chars "zz\r\n\r\n" ++ (chars "id=" ++ chars "1" ++ chars "&name=" ++ chars "a"))
    ∧ handle_echo_request bufC10 fsErrTxt
        = .ok (chars "HTTP/1.1 403 Data format error", chars "text/plain", chars "ERR") :=
  ⟨by decide, by decide⟩

/-- Claim C10 as amended: validation in the echo handler and in the
form-urlencoded upload branch is an unanchored substring match: any body
containing `id=<digits>&name=<alphanumerics>` somewhere inside surrounding
text passes validation and takes the success branch — provided the body
holds no blank-line separator "\r\n\r\n" (otherwise the handlers only see
the body truncated at that separator). -/
theorem c10_substring_match_succeeds (buffer : Str) (fs : Str → Option Str)
    (b pre d n post : Str)
    (hb : spec_request_body buffer = some b)
    (hbody : b = pre ++ chars "id=" ++ d ++ chars "&name=" ++ n ++ post)
    (hd : d ≠ []) (hda : ∀ c ∈ d, c.isDigit = true)
    (hn : n ≠ []) (hna : ∀ c ∈ n, c.isAlphanum = true)
    (hsep : ¬ bSep <:+: b) :
    handle_echo_request buffer fs
      = .ok (chars "HTTP/1.1 200 OK", chars "application/x-www-form-urlencoded", b)
    ∧ (extract_content_type buffer = .ok (chars "application/x-www-form-urlencoded") →
       handle_upload_request buffer fs
         = .ok (chars "HTTP/1.1 200 OK", chars "application/json", jsonIdName [] [])) := by
  have hget := body_get1 buffer b hb hsep
  have hassoc : b = pre ++ (chars "id=" ++ (d ++ (chars "&name=" ++ (n ++ post)))) := by
    rw [hbody]
    simp [List.append_assoc]
  have hmf := matchFrom_head d n post hd hda hn hna
  have hmatch : re_is_match b = true := by
    have hne : chars "id=" ++ (d ++ (chars "&name=" ++ (n ++ post))) ≠ [] := by
      intro hcon
      exact absurd (List.append_eq_nil.mp hcon).1 (by decide)
    rw [hassoc]
    exact re_is_match_append pre _ hne hmf
  constructor
  · unfold handle_echo_request
    simp only [hget, hmatch]
    rw [if_true]
  · intro hct
    unfold handle_upload_request
    simp only [hct]
    rw [if_neg (by decide), if_true]
    simp only [hget, hmatch]
    rw [if_true]

/-- The C10 witness buffer: a form-urlencoded upload whose body embeds the
pattern inside surrounding text. -/
def bufC10w : Str :=
  chars "POST /api/upload HTTP/1.1\r\nA: a\r\nB: b\r\nC: c\r\nContent-Type: application/x-www-form-urlencoded\r\n\r\nxxid=1&name=Bobyy"

theorem c10_substring_match_witness :
    handle_echo_request bufC10w fsNone
      = .ok (chars "HTTP/1.1 200 OK", chars "application/x-www-form-urlencoded",
          chars "xxid=1&name=Bobyy")
    ∧ handle_upload_request bufC10w fsNone
        = .ok (chars "HTTP/1.1 200 OK", chars "application/json", jsonIdName [] []) := by
  have h := c10_substring_match_succeeds bufC10w fsNone (chars "xxid=1&name=Bobyy")
    (chars "xx") (chars "1") (chars "Bob") (chars "yy")
    (by decide) (by decide) (by decide) (by decide) (by decide) (by decide) (by decide)
  exact ⟨h.1, h.2 rfl⟩

end HttpServer
